import Mathlib

/-!
Verification of the state-parameter CSRF protection and authorization-code
exchange handling of the OAuth test client (`src/server.js`).

The embedding models:
* the in-memory `stateStore` (a JS `Map` from state token to
  `{ timestamp, used }`) as an association list with JS `Map` semantics
  (update in place at an existing key, append otherwise, lookup of the
  first matching key);
* the `/login` handler (token insertion, expiry sweep, redirect URL);
* the `/auth/callback` handler (error / code / state checks, state
  validation and consumption, token-exchange result rendering).

Nondeterministic inputs of the source (the random token from
`crypto.randomBytes`, the two `Date.now()` readings, the query parameters,
and the outcome of the outbound `fetch`) are parameters of the model.
-/

/-- A stored state record: the value of the `stateStore` map in
`src/server.js` (`{ timestamp, used }`). -/
structure StateRecord where
  timestamp : Nat
  used : Bool
deriving DecidableEq, Repr

/-- The in-memory `stateStore`: a JS `Map` keyed by the state token,
modelled as an association list in insertion order. -/
abbrev StateStore := List (String × StateRecord)

/-- `stateStore.get(k)`: first record whose key equals `k`. -/
def mapGet : StateStore → String → Option StateRecord
  | [], _ => none
  | p :: rest, k => if p.1 == k then some p.2 else mapGet rest k

/-- `stateStore.set(k, v)`: JS `Map.set` updates the value at an existing
key in place (keeping insertion order) and appends a new entry otherwise. -/
def mapSet : StateStore → String → StateRecord → StateStore
  | [], k, v => [(k, v)]
  | p :: rest, k, v => if p.1 == k then (k, v) :: rest else p :: mapSet rest k v

/-- The sweep loop of `/login` (lines 85-90): delete every entry whose
`timestamp` is strictly below the cutoff `Date.now() - 10 * 60 * 1000`. -/
def sweepExpired (m : StateStore) (cutoff : Nat) : StateStore :=
  m.filter (fun p => !(p.2.timestamp < cutoff))

/-- The 10-minute TTL in milliseconds (`10 * 60 * 1000` in `src/server.js`). -/
def tenMinutesMs : Nat := 10 * 60 * 1000

theorem mapGet_mapSet_self (m : StateStore) (k : String) (v : StateRecord) :
    mapGet (mapSet m k v) k = some v := by
  induction m with
  | nil => simp [mapGet, mapSet]
  | cons p rest ih =>
    cases h : (p.1 == k) with
    | true => simp [mapSet, mapGet, h]
    | false => simp [mapSet, mapGet, h, ih]

theorem mapGet_mapSet_ne (m : StateStore) (k k' : String) (v : StateRecord)
    (hne : k' ≠ k) : mapGet (mapSet m k v) k' = mapGet m k' := by
  induction m with
  | nil =>
    simp [mapGet, mapSet]
    exact fun h => hne h.symm
  | cons p rest ih =>
    cases h : (p.1 == k) with
    | true =>
      have hpk : p.1 = k := by simpa using h
      have hkk : (k == k') = false := by
        simp [beq_eq_false_iff_ne]
        exact fun h2 => hne h2.symm
      simp [mapSet, mapGet, h, hkk, hpk]
    | false => simp [mapSet, mapGet, h, ih]

theorem mapGet_sweep_of_live (m : StateStore) (c : Nat) (k : String)
    (v : StateRecord) (h1 : mapGet m k = some v) (h2 : ¬ v.timestamp < c) :
    mapGet (sweepExpired m c) k = some v := by
  induction m with
  | nil => simp [mapGet] at h1
  | cons p rest ih =>
    simp only [sweepExpired, List.filter_cons]
    cases hk : (p.1 == k) with
    | true =>
      have hv : p.2 = v := by simpa [mapGet, hk] using h1
      rw [if_pos (by simp [hv, h2])]
      simp [mapGet, hk, hv]
    | false =>
      have h1' : mapGet rest k = some v := by simpa [mapGet, hk] using h1
      by_cases hkeep : (!(decide (p.2.timestamp < c))) = true
      · rw [if_pos hkeep]
        have := ih h1'
        simpa [sweepExpired, mapGet, hk] using this
      · rw [if_neg hkeep]
        have := ih h1'
        simpa [sweepExpired] using this

theorem sweep_sound (m : StateStore) (c : Nat) (k : String) (v : StateRecord)
    (h : mapGet (sweepExpired m c) k = some v) : ¬ v.timestamp < c := by
  induction m with
  | nil => simp [sweepExpired, mapGet] at h
  | cons p rest ih =>
    simp only [sweepExpired, List.filter_cons] at h
    by_cases hkeep : (!(decide (p.2.timestamp < c))) = true
    · rw [if_pos hkeep] at h
      cases hk : (p.1 == k) with
      | true =>
        have hv : p.2 = v := by simpa [mapGet, hk] using h
        have hnp : ¬ p.2.timestamp < c := by simpa using hkeep
        simpa [hv] using hnp
      | false =>
        exact ih (by simpa [sweepExpired, mapGet, hk] using h)
    · rw [if_neg hkeep] at h
      exact ih (by simpa [sweepExpired] using h)

/-- Result of the state-validation step at the callback. The source has no
expired case at lookup: lines 135-148 of `src/server.js` only distinguish
an absent record and an already-used record. -/
inductive ValidateResult where
  | ok
  | missingState
  | replayedState
deriving DecidableEq, Repr

/-- The `validateAndConsume` operation: the state-lookup/consumption block
of the callback handler (lines 135-148 of `src/server.js`).
`stateStore.get(state)` missing fails; `stateData.used` fails; otherwise
the record is written back with `used = true` and validation succeeds.
No timestamp is inspected here. -/
def validateAndConsume (store : StateStore) (tok : String) :
    ValidateResult × StateStore :=
  match mapGet store tok with
  | none => (ValidateResult.missingState, store)
  | some sd =>
    if sd.used then (ValidateResult.replayedState, store)
    else (ValidateResult.ok,
          mapSet store tok { timestamp := sd.timestamp, used := true })

/-- A sequence of `n` validation attempts with the same token against the
shared store. Each attempt's lookup-check-mark block contains no `await`
in the source, so the JS event loop runs it atomically; any interleaving of
concurrent callback requests on the same token is one such sequence. -/
def validateSeq (store : StateStore) (tok : String) :
    Nat → List ValidateResult × StateStore
  | 0 => ([], store)
  | Nat.succ n =>
    let step := validateAndConsume store tok
    let rest := validateSeq step.2 tok n
    (step.1 :: rest.1, rest.2)

theorem validateAndConsume_missing (store : StateStore) (tok : String)
    (h : mapGet store tok = none) :
    validateAndConsume store tok = (ValidateResult.missingState, store) := by
  simp [validateAndConsume, h]

theorem validateAndConsume_used (store : StateStore) (tok : String)
    (r : StateRecord) (h : mapGet store tok = some r) (hu : r.used = true) :
    validateAndConsume store tok = (ValidateResult.replayedState, store) := by
  simp [validateAndConsume, h, hu]

theorem validateAndConsume_fresh (store : StateStore) (tok : String) (ts : Nat)
    (h : mapGet store tok = some { timestamp := ts, used := false }) :
    validateAndConsume store tok =
      (ValidateResult.ok, mapSet store tok { timestamp := ts, used := true }) := by
  simp [validateAndConsume, h]

theorem validateSeq_replayed (s : StateStore) (tok : String) (ts : Nat) (n : Nat)
    (h : mapGet s tok = some { timestamp := ts, used := true }) :
    validateSeq s tok n = (List.replicate n ValidateResult.replayedState, s) := by
  induction n with
  | zero => simp [validateSeq]
  | succ n ih =>
    simp [validateSeq, validateAndConsume_used s tok _ h rfl, ih, List.replicate]

theorem validateSeq_single_use (store : StateStore) (tok : String) (ts : Nat)
    (n : Nat) (h : mapGet store tok = some { timestamp := ts, used := false }) :
    validateSeq store tok (n + 1) =
      (ValidateResult.ok :: List.replicate n ValidateResult.replayedState,
       mapSet store tok { timestamp := ts, used := true }) := by
  have hget := mapGet_mapSet_self store tok { timestamp := ts, used := true }
  simp [validateSeq, validateAndConsume_fresh store tok ts h,
        validateSeq_replayed _ tok ts n hget]

/-- JS truthiness of a query-parameter value, as used by `if (error)`,
`if (!authorizationCode)` and `if (!state)` in `src/server.js`: an absent
parameter (`undefined`) and the empty string are falsy, every other string
is truthy. -/
def jsTruthy : Option String → Bool
  | none => false
  | some s => !(s == "")

/-- JS `a || b` on two query-parameter values, interpolated into a template
string (`${errorDescription || error}` at line 121). -/
def jsOr (a b : Option String) : String :=
  if jsTruthy a then a.getD "" else b.getD ""

/-- An HTTP response sent by a handler: `res.status(n).send(body)`
(`res.send` alone defaults to status 200). -/
structure HttpResponse where
  status : Nat
  body : String
deriving DecidableEq, Repr

/-- Outcome of the outbound `fetch` to the token endpoint. A settled HTTP
response carries the status, the status text, and the response body; the
body is modelled post JSON round-trip (`await res.json()` followed by
`JSON.stringify`), as the serialized string. `networkError` is a rejected
`fetch` (or a failed body read), whose message reaches the same `catch`. -/
inductive FetchOutcome where
  | response (status : Nat) (statusText : String) (body : String)
  | networkError (message : String)
deriving DecidableEq, Repr

/-- The success page of the callback handler (lines 185-191), with the
token JSON interpolated into `<pre>`. -/
def successPage (tokens : String) : String :=
  "\n            <h1>Authentication Successful!</h1>\n" ++
  "            <p>Authorization Code received and exchanged for tokens.</p>\n" ++
  "            <p>Check server logs for token details.</p>\n" ++
  "            <p><pre>" ++ tokens ++ "</pre></p>\n" ++
  "            <p><a href=\"/\">Go back to home</a></p>\n        "

/-- The token-exchange tail of the callback handler (lines 158-196).
`tokenResponse.ok` is status 200-299. A non-ok response raises
`Token exchange failed: ${status} ${statusText} - ${JSON.stringify(errorData)}`,
which the `catch` turns into a 500 with
`Authentication failed during token exchange: ` prepended. -/
def tokenExchange (fo : FetchOutcome) : HttpResponse :=
  match fo with
  | FetchOutcome.networkError msg =>
    { status := 500,
      body := "Authentication failed during token exchange: " ++ msg }
  | FetchOutcome.response st stText body =>
    if 200 ≤ st ∧ st < 300 then
      { status := 200, body := successPage body }
    else
      { status := 500,
        body := "Authentication failed during token exchange: " ++
                "Token exchange failed: " ++ toString st ++ " " ++ stText ++
                " - " ++ body }

/-- The query parameters read by the callback handler (lines 114-117). -/
structure CallbackQuery where
  code : Option String
  state : Option String
  error : Option String
  error_description : Option String
deriving DecidableEq, Repr

/-- The `/auth/callback` handler (lines 113-197 of `src/server.js`):
checks `error`, then `code`, then `state` (JS truthiness), then looks up
and consumes the state record, and finally performs the token exchange.
Returns the HTTP response together with the state store after the
request. -/
def callback (q : CallbackQuery) (store : StateStore) (fo : FetchOutcome) :
    HttpResponse × StateStore :=
  if jsTruthy q.error then
    ({ status := 400,
       body := "Authentication failed: " ++ jsOr q.error_description q.error },
     store)
  else if !jsTruthy q.code then
    ({ status := 400, body := "Authentication failed: No code received." }, store)
  else if !jsTruthy q.state then
    ({ status := 400,
       body := "Authentication failed: No state parameter received." }, store)
  else
    match validateAndConsume store (q.state.getD "") with
    | (ValidateResult.missingState, _) =>
      ({ status := 400,
         body := "Authentication failed: Invalid or expired state parameter." },
       store)
    | (ValidateResult.replayedState, _) =>
      ({ status := 400,
         body := "Authentication failed: State parameter already used." },
       store)
    | (ValidateResult.ok, store2) => (tokenExchange fo, store2)

/-- The environment-supplied OAuth configuration used by `/login`. -/
structure OAuthConfig where
  clientId : String
  redirectUri : String
  scopes : String
  authorizeBaseUrl : String

/-- Unreserved characters of JS `encodeURIComponent`:
`A-Z a-z 0-9 - _ . ! ~ * ' ( )` are emitted unescaped. -/
def isUnreservedChar (c : Char) : Bool :=
  decide ((65 ≤ c.toNat ∧ c.toNat ≤ 90) ∨ (97 ≤ c.toNat ∧ c.toNat ≤ 122) ∨
    (48 ≤ c.toNat ∧ c.toNat ≤ 57) ∨
    c.toNat ∈ ([45, 95, 46, 33, 126, 42, 39, 40, 41] : List Nat))

/-- Uppercase hexadecimal digit for percent-encoding. -/
def hexDigitChar (n : Nat) : Char :=
  if n < 10 then Char.ofNat (48 + n) else Char.ofNat (55 + n)

/-- `%XY` escape of one byte. -/
def percentByte (b : Nat) : String :=
  String.mk [Char.ofNat 37, hexDigitChar (b / 16), hexDigitChar (b % 16)]

/-- UTF-8 bytes of a character (scalar values only, as in Lean `Char`). -/
def utf8Bytes (c : Char) : List Nat :=
  let n := c.toNat
  if n < 128 then [n]
  else if n < 2048 then [192 + n / 64, 128 + n % 64]
  else if n < 65536 then [224 + n / 4096, 128 + (n / 64) % 64, 128 + n % 64]
  else [240 + n / 262144, 128 + (n / 4096) % 64, 128 + (n / 64) % 64,
        128 + n % 64]

/-- JS `encodeURIComponent`: keep unreserved characters, percent-encode the
UTF-8 bytes of everything else. -/
def encodeURIComponent (s : String) : String :=
  String.join (s.data.map (fun c =>
    if isUnreservedChar c then String.mk [c]
    else String.join ((utf8Bytes c).map percentByte)))

/-- The authorization redirect URL built at lines 98-103 of
`src/server.js`. -/
def buildAuthUrl (cfg : OAuthConfig) (state : String) : String :=
  cfg.authorizeBaseUrl ++ "?" ++
  "client_id=" ++ cfg.clientId ++ "&" ++
  "redirect_uri=" ++ encodeURIComponent cfg.redirectUri ++ "&" ++
  "response_type=code&" ++
  "scope=" ++ encodeURIComponent cfg.scopes ++ "&" ++
  "state=" ++ state

/-- Result of the `/login` handler: `res.redirect(authUrl)` sends a 302
with the URL, and the handler leaves the store updated. -/
structure LoginResult where
  status : Nat
  redirectUrl : String
  store : StateStore
deriving Repr

/-- The `/login` handler (lines 76-108 of `src/server.js`): `state` is the
fresh random token, `now1` the `Date.now()` stored with it, `now2` the
`Date.now()` of the sweep cutoff (two separate clock readings in the
source). The new record is inserted before the sweep runs. -/
def login (cfg : OAuthConfig) (store : StateStore) (state : String)
    (now1 now2 : Nat) : LoginResult :=
  let store1 := mapSet store state { timestamp := now1, used := false }
  let store2 := sweepExpired store1 (now2 - tenMinutesMs)
  { status := 302, redirectUrl := buildAuthUrl cfg state, store := store2 }

theorem callback_success_path (q : CallbackQuery) (store : StateStore)
    (s : String) (ts : Nat) (fo : FetchOutcome)
    (he : jsTruthy q.error = false) (hc : jsTruthy q.code = true)
    (hs : q.state = some s) (hne : s ≠ "")
    (hrec : mapGet store s = some { timestamp := ts, used := false }) :
    callback q store fo =
      (tokenExchange fo, mapSet store s { timestamp := ts, used := true }) := by
  have hstate : jsTruthy q.state = true := by
    simp [jsTruthy, hs, hne]
  have hget : q.state.getD "" = s := by simp [hs]
  simp [callback, he, hc, hstate, hget, validateAndConsume_fresh store s ts hrec]

/-- C1: the spec requires a state token older than the 10-minute TTL to be
rejected at the callback (`ExpiredState`) regardless of its `used` flag.
The callback handler (lines 135-148 of `src/server.js`) never inspects the
record's timestamp: expiry is enforced only by the sweep inside `/login`.
At the failing input below the record's age (700000 ms at validation time)
exceeds `tenMinutesMs`, yet validation returns `ok` and the callback
completes with HTTP 200 instead of rejecting the token. -/
theorem validate_accepts_expired_token :
    tenMinutesMs <
      700000 - ({ timestamp := 0, used := false } : StateRecord).timestamp ∧
    (validateAndConsume [("a", { timestamp := 0, used := false })] "a").1 =
      ValidateResult.ok ∧
    (callback { code := some "c", state := some "a", error := none,
                error_description := none }
        [("a", { timestamp := 0, used := false })]
        (FetchOutcome.response 200 "OK" "x")).1.status = 200 :=
  ⟨by decide, by decide, by decide⟩

/-- C2: the first validation of a stored unused token succeeds and marks
the record `used = true`; each of the `n` subsequent validation attempts
with the same token fails with `ReplayedState`. -/
theorem state_token_single_use (store : StateStore) (tok : String) (ts n : Nat)
    (h : mapGet store tok = some { timestamp := ts, used := false }) :
    (validateSeq store tok (n + 1)).1 =
      ValidateResult.ok :: List.replicate n ValidateResult.replayedState ∧
    mapGet (validateSeq store tok (n + 1)).2 tok =
      some { timestamp := ts, used := true } := by
  rw [validateSeq_single_use store tok ts n h]
  exact ⟨rfl, mapGet_mapSet_self store tok _⟩

theorem state_token_single_use_witness :
    mapGet [("a", { timestamp := 5, used := false })] "a" =
      some { timestamp := 5, used := false } ∧
    ((validateSeq [("a", { timestamp := 5, used := false })] "a" 3).1 =
      ValidateResult.ok :: List.replicate 2 ValidateResult.replayedState ∧
     mapGet (validateSeq [("a", { timestamp := 5, used := false })] "a" 3).2
        "a" = some { timestamp := 5, used := true }) :=
  ⟨by decide, state_token_single_use _ "a" 5 2 (by decide)⟩

/-- C3: any interleaving of `k ≥ 1` concurrent validation attempts on the
same valid token (each attempt's lookup-check-mark block runs without a
suspension point, so the event loop serializes them into a sequence)
produces exactly one `ok`, and every other attempt observes
`ReplayedState`. -/
theorem concurrent_validate_one_winner (store : StateStore) (tok : String)
    (ts k : Nat) (hk : 1 ≤ k)
    (h : mapGet store tok = some { timestamp := ts, used := false }) :
    (validateSeq store tok k).1.count ValidateResult.ok = 1 ∧
    (validateSeq store tok k).1.count ValidateResult.replayedState = k - 1 ∧
    ∀ r ∈ (validateSeq store tok k).1,
      r = ValidateResult.ok ∨ r = ValidateResult.replayedState := by
  obtain ⟨n, rfl⟩ : ∃ n, k = n + 1 := ⟨k - 1, by omega⟩
  rw [validateSeq_single_use store tok ts n h]
  refine ⟨?_, ?_, ?_⟩
  · simp [List.count_cons, List.count_replicate]
  · simp [List.count_cons, List.count_replicate]
  · intro r hr
    rcases List.mem_cons.mp hr with h1 | h1
    · exact Or.inl h1
    · exact Or.inr (List.eq_of_mem_replicate h1)

theorem concurrent_validate_one_winner_witness :
    1 ≤ 3 ∧
    mapGet [("a", { timestamp := 5, used := false })] "a" =
      some { timestamp := 5, used := false } ∧
    ((validateSeq [("a", { timestamp := 5, used := false })] "a" 3).1.count
        ValidateResult.ok = 1 ∧
     (validateSeq [("a", { timestamp := 5, used := false })] "a" 3).1.count
        ValidateResult.replayedState = 3 - 1 ∧
     ∀ r ∈ (validateSeq [("a", { timestamp := 5, used := false })] "a" 3).1,
       r = ValidateResult.ok ∨ r = ValidateResult.replayedState) :=
  ⟨by decide, by decide,
   concurrent_validate_one_winner _ "a" 5 3 (by decide) (by decide)⟩

/-- C4: `/login` emits a 302 redirect whose URL is the authorization base
URL with `client_id`, the URL-encoded `redirect_uri`, `response_type=code`,
the URL-encoded configured scopes, and the `state` token; that token is
freshly stored with the current timestamp and `used = false`. The
hypothesis relates the two `Date.now()` readings of the handler (the sweep
cutoff reading is at most TTL after the insertion reading, which holds for
any two consecutive clock reads). -/
theorem login_redirect_wellformed (cfg : OAuthConfig) (store : StateStore)
    (state : String) (now1 now2 : Nat) (h : now2 ≤ now1 + tenMinutesMs) :
    (login cfg store state now1 now2).status = 302 ∧
    (login cfg store state now1 now2).redirectUrl =
      cfg.authorizeBaseUrl ++ "?" ++ "client_id=" ++ cfg.clientId ++ "&" ++
      "redirect_uri=" ++ encodeURIComponent cfg.redirectUri ++ "&" ++
      "response_type=code&" ++ "scope=" ++ encodeURIComponent cfg.scopes ++
      "&" ++ "state=" ++ state ∧
    mapGet (login cfg store state now1 now2).store state =
      some { timestamp := now1, used := false } := by
  refine ⟨rfl, rfl, ?_⟩
  have hlive : ¬ ({ timestamp := now1, used := false } : StateRecord).timestamp <
      now2 - tenMinutesMs := by
    simp only [StateRecord.mk.injEq]
    omega
  have hins := mapGet_mapSet_self store state { timestamp := now1, used := false }
  simpa [login] using
    mapGet_sweep_of_live _ (now2 - tenMinutesMs) state _ hins hlive

/-- A sample configuration for concrete instantiations. -/
def cfgSample : OAuthConfig where
  clientId := "seo_app"
  redirectUri := "https://seo.daveenci.ai/auth/callback"
  scopes := "openid profile email"
  authorizeBaseUrl := "https://auth.example/oauth/authorize"

theorem login_redirect_wellformed_witness :
    42 ≤ 42 + tenMinutesMs ∧
    ((login cfgSample [] "t" 42 42).status = 302 ∧
     (login cfgSample [] "t" 42 42).redirectUrl =
       cfgSample.authorizeBaseUrl ++ "?" ++ "client_id=" ++
       cfgSample.clientId ++ "&" ++ "redirect_uri=" ++
       encodeURIComponent cfgSample.redirectUri ++ "&" ++
       "response_type=code&" ++ "scope=" ++
       encodeURIComponent cfgSample.scopes ++ "&" ++ "state=" ++ "t" ∧
     mapGet (login cfgSample [] "t" 42 42).store "t" =
       some { timestamp := 42, used := false }) :=
  ⟨by decide, login_redirect_wellformed cfgSample [] "t" 42 42 (by decide)⟩

/-- C5: when state validation succeeded and the token endpoint answers
with a non-2xx status, the callback responds 500 and its body contains the
upstream status code and the server-supplied error body. -/
theorem token_exchange_failure_surfaced (q : CallbackQuery)
    (store : StateStore) (s : String) (ts st : Nat) (stText ebody : String)
    (he : jsTruthy q.error = false) (hc : jsTruthy q.code = true)
    (hs : q.state = some s) (hne : s ≠ "")
    (hrec : mapGet store s = some { timestamp := ts, used := false })
    (hst : ¬ (200 ≤ st ∧ st < 300)) :
    (callback q store (FetchOutcome.response st stText ebody)).1.status = 500 ∧
    (∃ a b, (callback q store (FetchOutcome.response st stText ebody)).1.body =
      a ++ toString st ++ b) ∧
    (∃ a b, (callback q store (FetchOutcome.response st stText ebody)).1.body =
      a ++ ebody ++ b) := by
  rw [callback_success_path q store s ts _ he hc hs hne hrec]
  have hbody : tokenExchange (FetchOutcome.response st stText ebody) =
      { status := 500,
        body := "Authentication failed during token exchange: " ++
                "Token exchange failed: " ++ toString st ++ " " ++ stText ++
                " - " ++ ebody } := by
    simp [tokenExchange, hst]
  rw [hbody]
  refine ⟨rfl,
    ⟨"Authentication failed during token exchange: " ++
       "Token exchange failed: ", " " ++ stText ++ " - " ++ ebody, ?_⟩,
    ⟨"Authentication failed during token exchange: " ++
       "Token exchange failed: " ++ toString st ++ " " ++ stText ++ " - ",
     "", ?_⟩⟩
  · simp [String.append_assoc]
  · simp [String.append_assoc, String.append_empty]

/-- A sample callback query with a valid code and state for concrete
instantiations. -/
def qSample : CallbackQuery where
  code := some "authcode"
  state := some "a"
  error := none
  error_description := none

/-- The serialized `\x7b"error":"invalid_client"\x7d` token-endpoint error
body of the spec's worked example. -/
def invalidClientBody : String := "\x7b\"error\":\"invalid_client\"\x7d"

theorem token_exchange_failure_surfaced_witness :
    ¬ (200 ≤ 401 ∧ 401 < 300) ∧
    ((callback qSample [("a", { timestamp := 0, used := false })]
        (FetchOutcome.response 401 "Unauthorized" invalidClientBody)).1.status
        = 500 ∧
     (∃ a b, (callback qSample [("a", { timestamp := 0, used := false })]
        (FetchOutcome.response 401 "Unauthorized" invalidClientBody)).1.body =
        a ++ toString 401 ++ b) ∧
     (∃ a b, (callback qSample [("a", { timestamp := 0, used := false })]
        (FetchOutcome.response 401 "Unauthorized" invalidClientBody)).1.body =
        a ++ invalidClientBody ++ b)) :=
  ⟨by decide,
   token_exchange_failure_surfaced qSample _ "a" 0 401 "Unauthorized"
     invalidClientBody (by decide) (by decide) rfl (by decide) (by decide)
     (by decide)⟩

/-- C6 counterexample: a callback whose query contains the `error`
parameter with the empty-string value (`?error=`, which Express surfaces
as `''`). `if (error)` treats the empty string as falsy, so the handler
does not fail with 400: with an otherwise valid code and state it proceeds
all the way to a 200, and the state token is consumed. -/
theorem empty_error_param_not_rejected :
    ({ code := some "c", state := some "a", error := some "",
       error_description := none } : CallbackQuery).error.isSome = true ∧
    (callback { code := some "c", state := some "a", error := some "",
                error_description := none }
        [("a", { timestamp := 0, used := false })]
        (FetchOutcome.response 200 "OK" "x")).1.status = 200 :=
  ⟨rfl, by decide⟩

/-- C6 (amended): a callback whose query contains a non-empty `error`
parameter fails with 400 regardless of the code, the state, the store and
the exchange outcome (so the check precedes code and state validation),
and the body surfaces `errorDescription || error`: the error description
verbatim when a non-empty one is supplied, otherwise the error code. -/
theorem error_param_rejected_verbatim (q : CallbackQuery)
    (store : StateStore) (fo : FetchOutcome) (e : String)
    (he : q.error = some e) (hne : e ≠ "") :
    (callback q store fo).1 =
      { status := 400,
        body := "Authentication failed: " ++
                jsOr q.error_description q.error } ∧
    (callback q store fo).2 = store := by
  have ht : jsTruthy q.error = true := by simp [jsTruthy, he, hne]
  exact ⟨by simp [callback, ht], by simp [callback, ht]⟩

theorem error_param_rejected_verbatim_witness :
    ("access_denied" : String) ≠ "" ∧
    ((callback { code := none, state := none, error := some "access_denied",
                 error_description := some "User cancelled" } []
        (FetchOutcome.response 200 "OK" "x")).1 =
      { status := 400,
        body := "Authentication failed: " ++
                jsOr (some "User cancelled") (some "access_denied") } ∧
     (callback { code := none, state := none, error := some "access_denied",
                 error_description := some "User cancelled" } []
        (FetchOutcome.response 200 "OK" "x")).2 = []) :=
  ⟨by decide,
   error_param_rejected_verbatim _ [] _ "access_denied" rfl (by decide)⟩

/-- C7: immediately after any `/login`, every record still in the store
has age at most the 10-minute TTL relative to the sweep's clock reading
`now2`: the handler inserts the fresh record and then removes every entry
strictly older than `now2 - tenMinutesMs`. -/
theorem login_sweeps_expired (cfg : OAuthConfig) (store : StateStore)
    (state : String) (now1 now2 : Nat) (tok : String) (r : StateRecord)
    (h : mapGet (login cfg store state now1 now2).store tok = some r) :
    now2 - r.timestamp ≤ tenMinutesMs := by
  have h2 : ¬ r.timestamp < now2 - tenMinutesMs :=
    sweep_sound _ _ _ _ (by simpa [login] using h)
  omega

theorem login_sweeps_expired_witness :
    mapGet (login cfgSample [("old", { timestamp := 3, used := false })]
        "t" 700000 700000).store "t" = some { timestamp := 700000, used := false } ∧
    700000 - ({ timestamp := 700000, used := false } : StateRecord).timestamp ≤
      tenMinutesMs :=
  ⟨by decide,
   login_sweeps_expired cfgSample [("old", { timestamp := 3, used := false })]
     "t" 700000 700000 "t" { timestamp := 700000, used := false } (by decide)⟩

/-- C8: a token absent from the store fails validation with
`MissingState`; at the callback (error absent, code and state present) it
yields the 400 invalid-state response and leaves the store unchanged. -/
theorem unknown_token_missing_state (q : CallbackQuery) (store : StateStore)
    (s : String) (fo : FetchOutcome)
    (he : jsTruthy q.error = false) (hc : jsTruthy q.code = true)
    (hs : q.state = some s) (hne : s ≠ "")
    (habs : mapGet store s = none) :
    (validateAndConsume store s).1 = ValidateResult.missingState ∧
    (callback q store fo).1 =
      { status := 400,
        body := "Authentication failed: Invalid or expired state parameter." } ∧
    (callback q store fo).2 = store := by
  have hstate : jsTruthy q.state = true := by simp [jsTruthy, hs, hne]
  have hget : q.state.getD "" = s := by simp [hs]
  have hv := validateAndConsume_missing store s habs
  exact ⟨by simp [hv], by simp [callback, he, hc, hstate, hget, hv],
         by simp [callback, he, hc, hstate, hget, hv]⟩

theorem unknown_token_missing_state_witness :
    mapGet [("a", { timestamp := 5, used := false })] "z" = none ∧
    ((validateAndConsume [("a", { timestamp := 5, used := false })] "z").1 =
      ValidateResult.missingState ∧
     (callback { code := some "c", state := some "z", error := none,
                 error_description := none }
        [("a", { timestamp := 5, used := false })]
        (FetchOutcome.response 200 "OK" "x")).1 =
      { status := 400,
        body := "Authentication failed: Invalid or expired state parameter." } ∧
     (callback { code := some "c", state := some "z", error := none,
                 error_description := none }
        [("a", { timestamp := 5, used := false })]
        (FetchOutcome.response 200 "OK" "x")).2 =
      [("a", { timestamp := 5, used := false })]) :=
  ⟨by decide,
   unknown_token_missing_state _ _ "z" _ (by decide) (by decide) rfl
     (by decide) (by decide)⟩

/-- C9: every callback request that fails before successful state
validation — truthy `error` parameter, missing (or empty) code, missing
(or empty) state, unknown token, or already-used token — returns with the
state store exactly as it was; in particular a callback carrying an
`error` parameter alongside a valid unused token does not consume the
token. -/
theorem failed_callback_preserves_store (q : CallbackQuery)
    (store : StateStore) (fo : FetchOutcome)
    (h : jsTruthy q.error = true ∨ jsTruthy q.code = false ∨
         jsTruthy q.state = false ∨
         mapGet store (q.state.getD "") = none ∨
         ∃ r, mapGet store (q.state.getD "") = some r ∧ r.used = true) :
    (callback q store fo).2 = store := by
  by_cases he : jsTruthy q.error = true
  · simp [callback, he]
  · have he' : jsTruthy q.error = false := by simpa using he
    by_cases hc : jsTruthy q.code = true
    · by_cases hst : jsTruthy q.state = true
      · rcases h with h | h | h | h | ⟨r, hr, hu⟩
        · exact absurd h he
        · exact absurd hc (by simp [h])
        · exact absurd hst (by simp [h])
        · simp [callback, he', hc, hst, validateAndConsume_missing _ _ h]
        · simp [callback, he', hc, hst, validateAndConsume_used _ _ r hr hu]
      · have hst' : jsTruthy q.state = false := by simpa using hst
        simp [callback, he', hc, hst']
    · have hc' : jsTruthy q.code = false := by simpa using hc
      simp [callback, he', hc']

theorem failed_callback_preserves_store_witness :
    jsTruthy ({ code := some "c", state := some "a",
                error := some "access_denied",
                error_description := none } : CallbackQuery).error = true ∧
    (callback { code := some "c", state := some "a",
                error := some "access_denied", error_description := none }
        [("a", { timestamp := 5, used := false })]
        (FetchOutcome.response 200 "OK" "x")).2 =
      [("a", { timestamp := 5, used := false })] :=
  ⟨by decide,
   failed_callback_preserves_store _ _ _ (Or.inl (by decide))⟩

/-- C10: a successful validation only flips the `used` flag of the record
for the presented token: the record stays in the store under the same key
with its timestamp unchanged, every other key maps exactly as before, and
a replay of the same token against the post-callback store fails with
`ReplayedState` (not `MissingState`). -/
theorem consume_frame_condition (q : CallbackQuery) (store : StateStore)
    (s : String) (ts : Nat) (fo : FetchOutcome)
    (he : jsTruthy q.error = false) (hc : jsTruthy q.code = true)
    (hs : q.state = some s) (hne : s ≠ "")
    (hrec : mapGet store s = some { timestamp := ts, used := false }) :
    mapGet (callback q store fo).2 s = some { timestamp := ts, used := true } ∧
    (∀ k, k ≠ s → mapGet (callback q store fo).2 k = mapGet store k) ∧
    (validateAndConsume (callback q store fo).2 s).1 =
      ValidateResult.replayedState := by
  rw [callback_success_path q store s ts fo he hc hs hne hrec]
  refine ⟨mapGet_mapSet_self store s _, ?_, ?_⟩
  · intro k hk
    exact mapGet_mapSet_ne store s k _ hk
  · rw [validateAndConsume_used (mapSet store s { timestamp := ts, used := true })
        s { timestamp := ts, used := true } (mapGet_mapSet_self store s _) rfl]

theorem consume_frame_condition_witness :
    mapGet [("a", { timestamp := 7, used := false }),
            ("b", { timestamp := 9, used := false })] "a" =
      some { timestamp := 7, used := false } ∧
    (mapGet (callback qSample
        [("a", { timestamp := 7, used := false }),
         ("b", { timestamp := 9, used := false })]
        (FetchOutcome.response 200 "OK" "x")).2 "a" =
      some { timestamp := 7, used := true } ∧
     (∀ k, k ≠ "a" →
       mapGet (callback qSample
          [("a", { timestamp := 7, used := false }),
           ("b", { timestamp := 9, used := false })]
          (FetchOutcome.response 200 "OK" "x")).2 k =
       mapGet [("a", { timestamp := 7, used := false }),
               ("b", { timestamp := 9, used := false })] k) ∧
     (validateAndConsume (callback qSample
          [("a", { timestamp := 7, used := false }),
           ("b", { timestamp := 9, used := false })]
          (FetchOutcome.response 200 "OK" "x")).2 "a").1 =
       ValidateResult.replayedState) :=
  ⟨by decide,
   consume_frame_condition qSample _ "a" 7 _ (by decide) (by decide) rfl
     (by decide) (by decide)⟩
